import Mathlib

/-!
Shallow embedding of the cclab-backend post/image lifecycle manager
(src/index.js): an Express app persisting posts (title, content, imageKey)
in MongoDB and images in S3, serving signed URLs.

External services (S3 client, MongoDB via mongoose) are modelled as oracles
or explicit state; JS objects produced by spread (`{...post.toObject(),
imageUrl}`) are modelled as association lists of key/value pairs so that the
presence or absence of a field is expressible.
-/

namespace CCLab

/-- JSON values occurring in this app's responses: strings and null. -/
inductive JVal where
  | str (s : String)
  | jnull
deriving DecidableEq, Repr

/-- A JS object literal, as an ordered association list (spread appends;
later bindings shadow earlier ones). -/
abbrev JObj := List (String × JVal)

/-- Field lookup on a JS object: the LAST binding for a key wins, matching
the semantics of object spread. -/
def jget (o : JObj) (k : String) : Option JVal :=
  match o.reverse.find? (fun kv => kv.1 == k) with
  | some kv => some kv.2
  | none => none

/-- An HTTP response body: `res.send(text)` or `res.json(value)` where the
value is a single object or an array of objects. -/
inductive Body where
  | text (s : String)
  | jobj (o : JObj)
  | jarr (a : List JObj)
deriving DecidableEq, Repr

/-- An HTTP response: status code plus body. -/
structure HttpResponse where
  status : Nat
  body : Body
deriving DecidableEq, Repr

/-- The persisted Post entity (mongoose model `Post`, src/index.js lines
48-54): `_id` (assigned by the repository), `title`, `content`, and the
S3 `imageKey`. The `_id` field is called `id` here. -/
structure Post where
  id : String
  title : String
  content : String
  imageKey : String
deriving DecidableEq, Repr

/-- Serialization of a mongoose document (`post.toObject()` /
`res.json(post)`): all schema fields are included, `imageKey` among them. -/
def toObject (p : Post) : JObj :=
  [("_id", .str p.id), ("title", .str p.title),
   ("content", .str p.content), ("imageKey", .str p.imageKey)]

/-- The parameters of an S3 `GetObjectCommand` as constructed by this app:
bucket, key, and the optional `ResponseContentType` override. -/
structure GetObjectCommand where
  bucket : String
  key : String
  responseContentType : Option String
deriving DecidableEq, Repr

/-- The signing oracle: `getSignedUrl(s3Client, command, {expiresIn})`.
`none` models the promise rejecting (a thrown error). -/
abbrev SignOracle := GetObjectCommand → Nat → Option String

/-! ### path.extname and the multer-s3 key callback -/

/-- Index of the last occurrence of a character in a list, if any. -/
def lastIdxOf (c : Char) : List Char → Option Nat
  | [] => none
  | x :: xs =>
    match lastIdxOf c xs with
    | some i => some (i + 1)
    | none => if x = c then some 0 else none

/-- Modelled from Node's `path.extname`: the substring of the basename from
its last dot onward; empty when the basename has no dot or the only dot is
its first character (dotfiles have no extension). -/
def extname (s : String) : String :=
  let base := (s.splitOn "/").getLastD ""
  let cs := base.toList
  match lastIdxOf '.' cs with
  | none => ""
  | some 0 => ""
  | some i => String.mk (cs.drop i)

/-- The multer-s3 `key` callback (src/index.js line 43):
`Images/<fieldname>_<Date.now()><path.extname(originalname)>`. -/
def s3Key (fieldname : String) (now : Nat) (originalname : String) : String :=
  "Images/" ++ fieldname ++ "_" ++ toString now ++ extname originalname

/-- The `req.file` object that multer-s3 attaches after a successful upload:
field name, original client-side file name, and the generated S3 key. -/
structure UploadedFile where
  fieldname : String
  originalname : String
  key : String
deriving DecidableEq, Repr

/-- An incoming multipart file part before upload: its original name. -/
structure IncomingFile where
  originalname : String
deriving DecidableEq, Repr

/-- The `upload.single('file')` middleware stage: with no file part it
passes through leaving `req.file` undefined (`none`); with a file part it
generates the key and puts the payload to S3, failing the request when the
put fails (`Except.error`). -/
def multerSingleFile (incoming : Option IncomingFile) (now : Nat)
    (putOk : Bool) : Except Unit (Option UploadedFile) :=
  match incoming with
  | none => .ok none
  | some f =>
    if putOk then
      .ok (some ⟨"file", f.originalname, s3Key "file" now f.originalname⟩)
    else
      .error ()

/-! ### Repository (mongoose) model -/

/-- Modelled from mongoose ObjectId casting: `findOne({_id})` / `findById`
throw a CastError when the id string is not a 24-character hex identifier. -/
def validObjectId (s : String) : Bool :=
  s.length == 24 && s.toList.all (fun c => c.isDigit || ('a' ≤ c && c ≤ 'f') || ('A' ≤ c && c ≤ 'F'))

/-- Repository lookup by id (`Post.findOne({_id: postID})` /
`Post.findById(postID)`): throws (`Except.error`) on a malformed id,
otherwise yields the matching record, if any. -/
def findById (repo : List Post) (postID : String) : Except Unit (Option Post) :=
  if validObjectId postID then
    .ok (repo.find? (fun p => p.id == postID))
  else
    .error ()

/-! ### GET / — list workflow (src/index.js lines 56-83) -/

/-- The command built for each post in the list handler (lines 64-68):
`ResponseContentType` is forced to image/jpeg. -/
def listGetCommand (bucket key : String) : GetObjectCommand :=
  ⟨bucket, key, some "image/jpeg"⟩

/-- One element of the list response: the post's serialized fields plus
`imageUrl`, which is the signed URL or null when signing threw
(lines 60-76). -/
def listElem (sign : SignOracle) (bucket : String) (p : Post) : JObj :=
  match sign (listGetCommand bucket p.imageKey) 3600 with
  | some url => toObject p ++ [("imageUrl", .str url)]
  | none => toObject p ++ [("imageUrl", .jnull)]

/-- The GET / handler: 500 when `Post.find({})` rejects, otherwise a 200
with one element per repository post, in repository order. -/
def getRootHandler (fetch : Except Unit (List Post)) (sign : SignOracle)
    (bucket : String) : HttpResponse :=
  match fetch with
  | .error _ => ⟨500, .text "Error fetching posts"⟩
  | .ok posts => ⟨200, .jarr (posts.map (listElem sign bucket))⟩

/-! ### Promise.all scheduling model for the list workflow

`Promise.all(posts.map(...))` starts one signing task per post; tasks
complete in an arbitrary interleaving, and each completion stores its value
at the slot of the task's index. -/

/-- One task completion writes its value into its own slot. -/
def settle (slots : List (Option α)) (c : Nat × α) : List (Option α) :=
  slots.set c.1 (some c.2)

/-- Run a sequence of task completions over the slot array. -/
def settleAll (slots : List (Option α)) (cs : List (Nat × α)) : List (Option α) :=
  cs.foldl settle slots

/-- `Promise.all` over `n` tasks with values `task i`, where `order` is the
order in which the tasks happen to complete. -/
def promiseAll (n : Nat) (task : Nat → α) (order : List Nat) : List (Option α) :=
  settleAll (List.replicate n none) (order.map (fun i => (i, task i)))

/-! ### POST /compose — compose workflow (src/index.js lines 85-99) -/

/-- The compose route handler proper, after the multer stage: reads
`req.file.key` (a TypeError when no file was uploaded, caught by the
handler's try/catch as a 500), saves the record, answers 201 with the
serialized document. Returns the response together with the repository
state after the request. -/
def composeHandler (repo : List Post) (reqFile : Option UploadedFile)
    (saveOk : Bool) (postTitle postContent newId : String) :
    HttpResponse × List Post :=
  match reqFile with
  | none => (⟨500, .text "Error saving post"⟩, repo)
  | some f =>
    if saveOk then
      let p : Post := ⟨newId, postTitle, postContent, f.key⟩
      (⟨201, .jobj (toObject p)⟩, repo ++ [p])
    else
      (⟨500, .text "Error saving post"⟩, repo)

/-- The full POST /compose route: multer middleware then handler. A multer
stage error is answered by Express's default error handler (a 500). -/
def composeRoute (repo : List Post) (incoming : Option IncomingFile)
    (now : Nat) (putOk saveOk : Bool) (postTitle postContent newId : String) :
    HttpResponse × List Post :=
  match multerSingleFile incoming now putOk with
  | .error _ => (⟨500, .text "Internal Server Error"⟩, repo)
  | .ok reqFile => composeHandler repo reqFile saveOk postTitle postContent newId

/-! ### GET /posts/:postID — detail workflow (src/index.js lines 101-123) -/

/-- The command built in the detail handler (lines 111-114): no
`ResponseContentType` override. -/
def detailGetCommand (bucket key : String) : GetObjectCommand :=
  ⟨bucket, key, none⟩

/-- The GET /posts/:postID handler: 404 when the lookup finds nothing, 500
when the lookup or the signing throws, otherwise 200 with the serialized
post plus its signed `imageUrl`. -/
def getPostHandler (repo : List Post) (postID : String) (sign : SignOracle)
    (bucket : String) : HttpResponse :=
  match findById repo postID with
  | .error _ => ⟨500, .text "Error fetching post"⟩
  | .ok none => ⟨404, .text "Post not found"⟩
  | .ok (some p) =>
    match sign (detailGetCommand bucket p.imageKey) 3600 with
    | none => ⟨500, .text "Error fetching post"⟩
    | some url => ⟨200, .jobj (toObject p ++ [("imageUrl", .str url)])⟩

/-! ### DELETE /posts/:postID — delete workflow (src/index.js lines 125-146) -/

/-- The DELETE /posts/:postID handler: 404 when the lookup finds nothing;
the S3 `DeleteObjectCommand` is sent first and a failure there is caught as
a 500 with the record untouched; then `Post.deleteOne({_id})` removes the
record (a failure there is also a 500, with the object already gone).
Returns the response together with the repository state after the
request. -/
def deletePostHandler (repo : List Post) (postID : String)
    (s3DeleteOk recordDeleteOk : Bool) : HttpResponse × List Post :=
  match findById repo postID with
  | .error _ => (⟨500, .text "Error deleting post"⟩, repo)
  | .ok none => (⟨404, .text "Post not found"⟩, repo)
  | .ok (some _) =>
    if s3DeleteOk then
      if recordDeleteOk then
        (⟨200, .text "Post and image deleted"⟩,
         repo.eraseP (fun p => p.id == postID))
      else
        (⟨500, .text "Error deleting post"⟩, repo)
    else
      (⟨500, .text "Error deleting post"⟩, repo)

/-- Whether a response body (an object, or any element of an array)
serializes a field named `k`. -/
def bodyHasField (b : Body) (k : String) : Bool :=
  match b with
  | .text _ => false
  | .jobj o => (o.map Prod.fst).contains k
  | .jarr a => a.any (fun o => (o.map Prod.fst).contains k)

/-! ## Theorems -/

theorem jget_imageUrl (p : Post) (v : JVal) :
    jget (toObject p ++ [("imageUrl", v)]) "imageUrl" = some v := rfl

/-- C1: if the S3 delete for an existing post's imageKey throws, the
delete workflow answers 500 and the repository is unchanged, the record
still retrievable by the same id. -/
theorem delete_s3_failure_keeps_record (repo : List Post) (postID : String)
    (p : Post) (recOk : Bool)
    (h : findById repo postID = .ok (some p)) :
    (deletePostHandler repo postID false recOk).1
        = ⟨500, .text "Error deleting post"⟩
      ∧ (deletePostHandler repo postID false recOk).2 = repo
      ∧ findById (deletePostHandler repo postID false recOk).2 postID
        = .ok (some p) := by
  unfold deletePostHandler
  rw [h]
  exact ⟨rfl, rfl, h⟩

theorem delete_s3_failure_keeps_record_witness :
    (deletePostHandler [⟨"0123456789abcdef01234567", "t", "c", "Images/file_1.png"⟩]
        "0123456789abcdef01234567" false true).1
        = ⟨500, .text "Error deleting post"⟩
      ∧ (deletePostHandler [⟨"0123456789abcdef01234567", "t", "c", "Images/file_1.png"⟩]
        "0123456789abcdef01234567" false true).2
        = [⟨"0123456789abcdef01234567", "t", "c", "Images/file_1.png"⟩]
      ∧ findById (deletePostHandler [⟨"0123456789abcdef01234567", "t", "c", "Images/file_1.png"⟩]
          "0123456789abcdef01234567" false true).2 "0123456789abcdef01234567"
        = .ok (some ⟨"0123456789abcdef01234567", "t", "c", "Images/file_1.png"⟩) :=
  delete_s3_failure_keeps_record
    [⟨"0123456789abcdef01234567", "t", "c", "Images/file_1.png"⟩]
    "0123456789abcdef01234567" ⟨"0123456789abcdef01234567", "t", "c", "Images/file_1.png"⟩
    true rfl

/-- C3: in the detail workflow, if the record exists but signing its key
throws, the whole request fails with a 500 text response and no partial
post object is returned. -/
theorem detail_sign_failure_fails_request (repo : List Post) (postID : String)
    (sign : SignOracle) (bucket : String) (p : Post)
    (h1 : findById repo postID = .ok (some p))
    (h2 : sign (detailGetCommand bucket p.imageKey) 3600 = none) :
    getPostHandler repo postID sign bucket = ⟨500, .text "Error fetching post"⟩
      ∧ ∀ o : JObj, (getPostHandler repo postID sign bucket).body ≠ Body.jobj o := by
  have hmain : getPostHandler repo postID sign bucket
      = ⟨500, .text "Error fetching post"⟩ := by
    unfold getPostHandler
    rw [h1]
    dsimp only
    rw [h2]
  exact ⟨hmain, fun o h => by rw [hmain] at h; cases h⟩

theorem detail_sign_failure_fails_request_witness :
    getPostHandler [⟨"0123456789abcdef01234567", "t", "c", "k"⟩]
        "0123456789abcdef01234567" (fun _ _ => none) "b"
        = ⟨500, .text "Error fetching post"⟩
      ∧ ∀ o : JObj, (getPostHandler [⟨"0123456789abcdef01234567", "t", "c", "k"⟩]
          "0123456789abcdef01234567" (fun _ _ => none) "b").body ≠ Body.jobj o :=
  detail_sign_failure_fails_request
    [⟨"0123456789abcdef01234567", "t", "c", "k"⟩] "0123456789abcdef01234567"
    (fun _ _ => none) "b" ⟨"0123456789abcdef01234567", "t", "c", "k"⟩
    rfl rfl

theorem listElem_null_iff (sign : SignOracle) (bucket : String) (p : Post) :
    (decide (jget (listElem sign bucket p) "imageUrl" = some JVal.jnull))
      = (sign (listGetCommand bucket p.imageKey) 3600).isNone := by
  unfold listElem
  cases hs : sign (listGetCommand bucket p.imageKey) 3600 with
  | none => simp [jget_imageUrl]
  | some url => simp [jget_imageUrl]

/-- C2: when signing fails for exactly one of the repository's posts, the
list request still answers 200 with one element per post, exactly one
element has a null imageUrl, and every element's imageUrl is its own
signing outcome (a string URL wherever signing succeeded). -/
theorem list_tolerates_single_sign_failure (sign : SignOracle) (bucket : String)
    (posts : List Post)
    (h1 : posts.countP
        (fun p => (sign (listGetCommand bucket p.imageKey) 3600).isNone) = 1) :
    getRootHandler (.ok posts) sign bucket
        = ⟨200, .jarr (posts.map (listElem sign bucket))⟩
      ∧ (posts.map (listElem sign bucket)).length = posts.length
      ∧ (posts.map (listElem sign bucket)).countP
          (fun o => decide (jget o "imageUrl" = some JVal.jnull)) = 1
      ∧ ∀ i (hi : i < posts.length),
          jget ((posts.map (listElem sign bucket)).get ⟨i, by simpa using hi⟩)
              "imageUrl"
            = match sign (listGetCommand bucket (posts.get ⟨i, hi⟩).imageKey) 3600 with
              | some url => some (JVal.str url)
              | none => some JVal.jnull := by
  refine ⟨rfl, List.length_map posts _, ?_, ?_⟩
  · rw [List.countP_map]
    have he : ((fun o => decide (jget o "imageUrl" = some JVal.jnull))
          ∘ listElem sign bucket)
        = (fun p => (sign (listGetCommand bucket p.imageKey) 3600).isNone) :=
      funext fun p => listElem_null_iff sign bucket p
    rw [he, h1]
  · intro i hi
    simp only [List.get_eq_getElem, List.getElem_map]
    unfold listElem
    cases hs : sign (listGetCommand bucket (posts[i]).imageKey) 3600 with
    | none => simp [jget_imageUrl]
    | some url => simp [jget_imageUrl]

theorem list_tolerates_single_sign_failure_witness :
    ([⟨"a1", "t1", "c1", "k1"⟩, ⟨"a2", "t2", "c2", "bad"⟩].map
        (listElem (fun cmd _ => if cmd.key == "bad" then none else some "url") "b")).countP
        (fun o => decide (jget o "imageUrl" = some JVal.jnull)) = 1 :=
  (list_tolerates_single_sign_failure
    (fun cmd _ => if cmd.key == "bad" then none else some "url") "b"
    [⟨"a1", "t1", "c1", "k1"⟩, ⟨"a2", "t2", "c2", "bad"⟩] (by decide)).2.2.1

/-- C4 counterexample: a compose request with no file payload is answered
with status 500 — a server fault, not a client (4xx) error — so the claim
that the failure surfaces as a client error is false on this code. -/
theorem compose_missing_file_not_client_error :
    (composeRoute [] none 0 true true "t" "c" "id1").1.status = 500
      ∧ ¬(400 ≤ (composeRoute [] none 0 true true "t" "c" "id1").1.status
          ∧ (composeRoute [] none 0 true true "t" "c" "id1").1.status < 500)
      ∧ (composeRoute [] none 0 true true "t" "c" "id1").2 = [] := by
  decide

/-- C4 amended: a compose request with no file payload fails with a
500-equivalent server fault (the handler's read of `req.file.key` throws
and is caught), and no Post record is created. -/
theorem compose_missing_file_is_500 (repo : List Post) (now : Nat)
    (putOk saveOk : Bool) (t c nid : String) :
    (composeRoute repo none now putOk saveOk t c nid).1
        = ⟨500, .text "Error saving post"⟩
      ∧ (composeRoute repo none now putOk saveOk t c nid).2 = repo :=
  ⟨rfl, rfl⟩

theorem settleAll_length (slots : List (Option α)) (cs : List (Nat × α)) :
    (settleAll slots cs).length = slots.length := by
  induction cs generalizing slots with
  | nil => rfl
  | cons c cs ih =>
    show (settleAll (settle slots c) cs).length = _
    rw [ih]
    exact List.length_set slots c.1 (some c.2)

theorem settleAll_getElem_not_mem (slots : List (Option α)) (cs : List (Nat × α))
    (j : Nat) (h : j ∉ cs.map Prod.fst) :
    (settleAll slots cs)[j]? = slots[j]? := by
  induction cs generalizing slots with
  | nil => rfl
  | cons c cs ih =>
    have hj1 : c.1 ≠ j := fun he => h (by simp [he])
    have hj2 : j ∉ cs.map Prod.fst := fun hm => h (by simp [hm])
    show (settleAll (settle slots c) cs)[j]? = _
    rw [ih _ hj2]
    exact List.getElem?_set_ne hj1

theorem settleAll_getElem_mem (slots : List (Option α)) (cs : List (Nat × α))
    (j : Nat) (v : α) (hmem : j ∈ cs.map Prod.fst)
    (hval : ∀ c ∈ cs, c.1 = j → c.2 = v) (hlen : j < slots.length) :
    (settleAll slots cs)[j]? = some (some v) := by
  induction cs generalizing slots with
  | nil => simp at hmem
  | cons c cs ih =>
    show (settleAll (settle slots c) cs)[j]? = _
    by_cases hm : j ∈ cs.map Prod.fst
    · exact ih (settle slots c) hm
        (fun d hd => hval d (List.mem_cons_of_mem c hd))
        (by rw [settle, List.length_set]; exact hlen)
    · have hcj : c.1 = j := by
        simp only [List.map_cons, List.mem_cons] at hmem
        rcases hmem with hj | hj
        · exact hj.symm
        · exact absurd hj hm
      have hcv : c.2 = v := hval c (List.mem_cons_self c cs) hcj
      rw [settleAll_getElem_not_mem _ _ _ hm, settle, hcj, hcv]
      exact List.getElem?_set_eq_of_lt (some v) hlen

theorem promiseAll_perm (n : Nat) (task : Nat → α) (order : List Nat)
    (h : order.Perm (List.range n)) :
    promiseAll n task order = (List.range n).map (fun i => some (task i)) := by
  apply List.ext_getElem?
  intro j
  by_cases hj : j < n
  · have hmem : j ∈ (order.map (fun i => (i, task i))).map Prod.fst := by
      simp only [List.map_map]
      simpa using h.mem_iff.mpr (List.mem_range.mpr hj)
    have hval : ∀ c ∈ order.map (fun i => (i, task i)), c.1 = j → c.2 = task j := by
      intro c hc hcj
      rcases List.mem_map.mp hc with ⟨i, _, rfl⟩
      simp only at hcj ⊢
      rw [hcj]
    rw [promiseAll, settleAll_getElem_mem _ _ j (task j) hmem hval
      (by simpa using hj)]
    rw [List.getElem?_map]
    simp [List.getElem?_range hj]
  · have h1 : (promiseAll n task order).length = n := by
      rw [promiseAll, settleAll_length, List.length_replicate]
    have h2 : ((List.range n).map (fun i => some (task i))).length = n := by simp
    rw [List.getElem?_eq_none (by omega), List.getElem?_eq_none (by omega)]

theorem map_range_getD (l : List β) (f : β → γ) (d : β) :
    (List.range l.length).map (fun i => f (l.getD i d)) = l.map f := by
  apply List.ext_getElem
  · simp
  · intro i h1 h2
    simp only [List.getElem_map, List.getElem_range]
    rw [List.getD_eq_getElem l d (by simpa using h2)]

/-- C7: the joined result of the concurrent per-post signing tasks equals
the repository-ordered sequence of list elements for every completion
order of the tasks, and the list response carries exactly that
repository-ordered sequence. -/
theorem list_order_independent_of_completion (sign : SignOracle) (bucket : String)
    (posts : List Post) (order : List Nat)
    (h : order.Perm (List.range posts.length)) :
    promiseAll posts.length
        (fun i => listElem sign bucket (posts.getD i ⟨"", "", "", ""⟩)) order
        = posts.map (fun p => some (listElem sign bucket p))
      ∧ getRootHandler (.ok posts) sign bucket
        = ⟨200, .jarr (posts.map (listElem sign bucket))⟩ := by
  refine ⟨?_, rfl⟩
  rw [promiseAll_perm _ _ _ h]
  exact map_range_getD posts (fun p => some (listElem sign bucket p)) ⟨"", "", "", ""⟩

theorem list_order_independent_of_completion_witness :
    promiseAll ([⟨"a1", "t1", "c1", "k1"⟩, ⟨"a2", "t2", "c2", "k2"⟩] : List Post).length
        (fun i => listElem (fun _ _ => some "u") "b"
          (([⟨"a1", "t1", "c1", "k1"⟩, ⟨"a2", "t2", "c2", "k2"⟩] : List Post).getD i
            ⟨"", "", "", ""⟩)) [1, 0]
      = ([⟨"a1", "t1", "c1", "k1"⟩, ⟨"a2", "t2", "c2", "k2"⟩] : List Post).map
          (fun p => some (listElem (fun _ _ => some "u") "b" p)) :=
  (list_order_independent_of_completion (fun _ _ => some "u") "b"
    [⟨"a1", "t1", "c1", "k1"⟩, ⟨"a2", "t2", "c2", "k2"⟩] [1, 0] (by decide)).1

/-- C6: every successfully composed post is stored with imageKey exactly
`Images/<field>_<timestamp><extname(originalname)>`, which is non-empty. -/
theorem compose_key_form (repo : List Post) (f : IncomingFile) (now : Nat)
    (t c nid : String) :
    (composeRoute repo (some f) now true true t c nid).2
        = repo ++ [⟨nid, t, c,
            "Images/" ++ "file" ++ "_" ++ toString now ++ extname f.originalname⟩]
      ∧ (composeRoute repo (some f) now true true t c nid).1
        = ⟨201, .jobj (toObject ⟨nid, t, c, s3Key "file" now f.originalname⟩)⟩
      ∧ s3Key "file" now f.originalname ≠ "" := by
  refine ⟨rfl, rfl, fun hcontra => ?_⟩
  have hlen := congrArg String.length hcontra
  simp [s3Key, String.length_append] at hlen
  exact absurd hlen.1.1 (by decide)

theorem find?_eraseP_nodup (l : List Post) (postID : String)
    (hids : (l.map Post.id).Nodup) :
    (l.eraseP (fun p => p.id == postID)).find? (fun p => p.id == postID) = none := by
  induction l with
  | nil => rfl
  | cons q l ih =>
    rw [List.map_cons, List.nodup_cons] at hids
    cases hqp : (q.id == postID) with
    | true =>
      rw [List.eraseP_cons, hqp]
      simp only [cond_true]
      apply List.find?_eq_none.mpr
      intro r hr hrp
      have h1 : r.id = postID := by simpa using hrp
      have h2 : q.id = postID := by simpa using hqp
      exact hids.1 (List.mem_map.mpr ⟨r, hr, by rw [h1, h2]⟩)
    | false =>
      rw [List.eraseP_cons, hqp]
      simp only [cond_false]
      rw [List.find?_cons_of_neg _ (by simp [hqp])]
      exact ih hids.2

/-- C8: deleting an existing post with both the S3 delete and the record
delete succeeding answers 200 with the plain confirmation text, and a
subsequent detail lookup of the same id answers 404. -/
theorem delete_success_then_detail_404 (repo : List Post) (postID : String)
    (p : Post) (hids : (repo.map Post.id).Nodup)
    (h : findById repo postID = .ok (some p)) :
    (deletePostHandler repo postID true true).1
        = ⟨200, .text "Post and image deleted"⟩
      ∧ ∀ sign bucket,
          getPostHandler (deletePostHandler repo postID true true).2 postID
            sign bucket = ⟨404, .text "Post not found"⟩ := by
  have hvalid : validObjectId postID = true := by
    by_contra hv
    rw [Bool.not_eq_true] at hv
    unfold findById at h
    rw [hv] at h
    simp at h
  have hstat : (deletePostHandler repo postID true true).1
      = ⟨200, .text "Post and image deleted"⟩ := by
    unfold deletePostHandler
    rw [h]
    rfl
  have hres : (deletePostHandler repo postID true true).2
      = repo.eraseP (fun q => q.id == postID) := by
    unfold deletePostHandler
    rw [h]
    rfl
  refine ⟨hstat, fun sign bucket => ?_⟩
  have hfind2 : findById (repo.eraseP (fun q => q.id == postID)) postID
      = .ok none := by
    unfold findById
    rw [find?_eraseP_nodup repo postID hids]
    simp [hvalid]
  rw [hres]
  unfold getPostHandler
  rw [hfind2]

theorem delete_success_then_detail_404_witness :
    (deletePostHandler [⟨"0123456789abcdef01234567", "t", "c", "Images/file_2.png"⟩]
        "0123456789abcdef01234567" true true).1
        = ⟨200, .text "Post and image deleted"⟩
      ∧ getPostHandler
          (deletePostHandler [⟨"0123456789abcdef01234567", "t", "c", "Images/file_2.png"⟩]
            "0123456789abcdef01234567" true true).2
          "0123456789abcdef01234567" (fun _ _ => some "u") "b"
        = ⟨404, .text "Post not found"⟩ :=
  ⟨(delete_success_then_detail_404
      [⟨"0123456789abcdef01234567", "t", "c", "Images/file_2.png"⟩]
      "0123456789abcdef01234567" ⟨"0123456789abcdef01234567", "t", "c", "Images/file_2.png"⟩
      (by decide) rfl).1,
   (delete_success_then_detail_404
      [⟨"0123456789abcdef01234567", "t", "c", "Images/file_2.png"⟩]
      "0123456789abcdef01234567" ⟨"0123456789abcdef01234567", "t", "c", "Images/file_2.png"⟩
      (by decide) rfl).2 (fun _ _ => some "u") "b"⟩

/-- C5 counterexample: with one concrete post, the list, compose, and
detail responses each serialize an object that DOES contain the imageKey
field, so the claim that imageKey is never exposed to callers is false. -/
theorem imageKey_exposed_counterexample :
    bodyHasField (getRootHandler
        (.ok [⟨"0123456789abcdef01234567", "t", "c", "Images/file_3.png"⟩])
        (fun _ _ => some "u") "b").body "imageKey" = true
      ∧ bodyHasField (composeRoute [] (some ⟨"a.png"⟩) 0 true true "t" "c"
          "0123456789abcdef01234567").1.body "imageKey" = true
      ∧ bodyHasField (getPostHandler
          [⟨"0123456789abcdef01234567", "t", "c", "Images/file_3.png"⟩]
          "0123456789abcdef01234567" (fun _ _ => some "u") "b").body "imageKey"
        = true := by
  decide

/-- C5 amended: the serialized post objects returned by the list, compose
(on success), and detail (on success) workflows all DO contain the
imageKey field — the spread of the mongoose document includes it alongside
the derived imageUrl. -/
theorem imageKey_always_exposed (sign : SignOracle) (bucket : String) (p : Post)
    (repo : List Post) (postID : String) (g : IncomingFile) (now : Nat)
    (t c nid url : String)
    (hfind : findById repo postID = .ok (some p))
    (hsign : sign (detailGetCommand bucket p.imageKey) 3600 = some url) :
    "imageKey" ∈ (listElem sign bucket p).map Prod.fst
      ∧ bodyHasField (composeRoute repo (some g) now true true t c nid).1.body
          "imageKey" = true
      ∧ bodyHasField (getPostHandler repo postID sign bucket).body "imageKey"
        = true := by
  refine ⟨?_, rfl, ?_⟩
  · unfold listElem
    cases sign (listGetCommand bucket p.imageKey) 3600 with
    | none => simp [toObject]
    | some url => simp [toObject]
  · unfold getPostHandler
    rw [hfind]
    dsimp only
    rw [hsign]
    rfl

theorem imageKey_always_exposed_witness :
    "imageKey" ∈ (listElem (fun _ _ => some "u") "b"
        ⟨"0123456789abcdef01234567", "t", "c", "k"⟩).map Prod.fst
      ∧ bodyHasField (composeRoute
          [⟨"0123456789abcdef01234567", "t", "c", "k"⟩] (some ⟨"b.png"⟩) 0 true true
          "t2" "c2" "n2").1.body "imageKey" = true
      ∧ bodyHasField (getPostHandler [⟨"0123456789abcdef01234567", "t", "c", "k"⟩]
          "0123456789abcdef01234567" (fun _ _ => some "u") "b").body "imageKey"
        = true :=
  imageKey_always_exposed (fun _ _ => some "u") "b"
    ⟨"0123456789abcdef01234567", "t", "c", "k"⟩
    [⟨"0123456789abcdef01234567", "t", "c", "k"⟩] "0123456789abcdef01234567"
    ⟨"b.png"⟩ 0 "t2" "c2" "n2" "u" rfl rfl

/-- C10: the list workflow signs each key with ResponseContentType forced
to image/jpeg while the detail workflow signs the same key with no
content-type override; both requests use the 3600-second expiry. -/
theorem sign_request_params (sign : SignOracle) (bucket : String) (p : Post)
    (repo : List Post) (postID : String)
    (hfind : findById repo postID = .ok (some p)) :
    (listGetCommand bucket p.imageKey).responseContentType = some "image/jpeg"
      ∧ (detailGetCommand bucket p.imageKey).responseContentType = none
      ∧ (listGetCommand bucket p.imageKey).key = p.imageKey
      ∧ (detailGetCommand bucket p.imageKey).key = p.imageKey
      ∧ listElem sign bucket p
        = (match sign ⟨bucket, p.imageKey, some "image/jpeg"⟩ 3600 with
           | some url => toObject p ++ [("imageUrl", JVal.str url)]
           | none => toObject p ++ [("imageUrl", JVal.jnull)])
      ∧ getPostHandler repo postID sign bucket
        = (match sign ⟨bucket, p.imageKey, none⟩ 3600 with
           | none => ⟨500, .text "Error fetching post"⟩
           | some url =>
             ⟨200, .jobj (toObject p ++ [("imageUrl", JVal.str url)])⟩) := by
  refine ⟨rfl, rfl, rfl, rfl, rfl, ?_⟩
  unfold getPostHandler
  rw [hfind]
  rfl

theorem sign_request_params_witness :
    (listGetCommand "b" "k").responseContentType = some "image/jpeg"
      ∧ (detailGetCommand "b" "k").responseContentType = none :=
  ⟨(sign_request_params (fun _ _ => some "u") "b"
      ⟨"0123456789abcdef01234567", "t", "c", "k"⟩
      [⟨"0123456789abcdef01234567", "t", "c", "k"⟩] "0123456789abcdef01234567"
      rfl).1,
   (sign_request_params (fun _ _ => some "u") "b"
      ⟨"0123456789abcdef01234567", "t", "c", "k"⟩
      [⟨"0123456789abcdef01234567", "t", "c", "k"⟩] "0123456789abcdef01234567"
      rfl).2.1⟩

/-- C9: when the id is malformed (the repository's id cast throws), both
the detail and the delete workflows answer 500, never 404. -/
theorem malformed_id_yields_500 (repo : List Post) (postID : String)
    (sign : SignOracle) (bucket : String) (s3Ok recOk : Bool)
    (h : validObjectId postID = false) :
    getPostHandler repo postID sign bucket = ⟨500, .text "Error fetching post"⟩
      ∧ (deletePostHandler repo postID s3Ok recOk).1
        = ⟨500, .text "Error deleting post"⟩
      ∧ (getPostHandler repo postID sign bucket).status ≠ 404
      ∧ (deletePostHandler repo postID s3Ok recOk).1.status ≠ 404 := by
  have hf : findById repo postID = .error () := by
    unfold findById
    rw [h]
    rfl
  have hg : getPostHandler repo postID sign bucket
      = ⟨500, .text "Error fetching post"⟩ := by
    unfold getPostHandler
    rw [hf]
  have hd : (deletePostHandler repo postID s3Ok recOk).1
      = ⟨500, .text "Error deleting post"⟩ := by
    unfold deletePostHandler
    rw [hf]
  exact ⟨hg, hd, by rw [hg]; decide, by rw [hd]; decide⟩

theorem malformed_id_yields_500_witness :
    getPostHandler [] "abc" (fun _ _ => none) "b" = ⟨500, .text "Error fetching post"⟩
      ∧ (deletePostHandler [] "abc" true true).1 = ⟨500, .text "Error deleting post"⟩
      ∧ (getPostHandler [] "abc" (fun _ _ => none) "b").status ≠ 404
      ∧ (deletePostHandler [] "abc" true true).1.status ≠ 404 :=
  malformed_id_yields_500 [] "abc" (fun _ _ => none) "b" true true (by decide)

end CCLab
